import Mathlib

/-!
Shallow embedding of the two FastAPI services of this repository
(`python_ai_plugin/app.py` and `python_question_generator/app.py`) and
proofs about their request/response normalization, provider-availability
and error-translation logic.

Modelling conventions:
* Machine I/O (the single outbound HTTP call each adapter makes via
  `httpx`) is modelled by an explicit `UpstreamResult` argument: either a
  transport failure (timeout / connection error, i.e. any `httpx`
  exception that is not `HTTPStatusError`) or a response with a numeric
  status and an already-decoded JSON body.
* `fastapi.HTTPException` is modelled by the `HTTPException` structure;
  adapters return `Except HTTPException result`.
* Python `json` values are modelled by the `Json` inductive.  JSON objects
  are association lists; the bodies handled by this repository carry no
  duplicate keys.
* Python string formatting `f"... {x}"` becomes `String` concatenation.
-/

/-- Model of `fastapi.HTTPException`: a status code and a detail string. -/
structure HTTPException where
  status_code : Nat
  detail : String
  deriving Repr, DecidableEq

/-- Decoded JSON value, as produced by `response.json()` / `json.loads`. -/
inductive Json where
  | null : Json
  | jbool : Bool → Json
  | jnum : Int → Json
  | jstr : String → Json
  | jarr : List Json → Json
  | jobj : List (String × Json) → Json

/-- `data[k]` / `data.get(k)` on a JSON object; `none` both when the key is
absent and when the value is not an object (in Python the subsequent
subscript or `.get` raises, landing in the adapter's generic handler). -/
def Json.lookup : Json → String → Option Json
  | .jobj fields, k => fields.lookup k
  | _, _ => none

/-- `xs[i]` on a JSON array; `none` when out of range (Python `IndexError`)
or when the value is not an array. -/
def Json.index : Json → Nat → Option Json
  | .jarr xs, i => xs.get? i
  | _, _ => none

/-- A JSON value used where Python expects `str`. -/
def Json.asString : Json → Option String
  | .jstr s => some s
  | _ => none

/-- Outcome of the one outbound `http_client.post` call an adapter makes. -/
inductive UpstreamResult where
  | transportError : String → UpstreamResult
  | response : Nat → Json → UpstreamResult

/-- `httpx` success statuses: `response.raise_for_status()` raises
`HTTPStatusError` exactly when the status is outside 200..299. -/
def is_success (code : Nat) : Bool :=
  200 ≤ code && code < 300

/-- Python truthiness of an `Optional[str]` settings field, as used by
`bool(key)`, `all([...])` and `if not settings.x`: `None` and the empty
string are falsy, every other string is truthy. -/
def truthy : Option String → Bool
  | none => false
  | some s => !s.isEmpty

/-- Stand-in for Python `str(e)` of the exception raised while extracting
fields from a 2xx body (`KeyError` / `IndexError` / `TypeError` /
pydantic `ValidationError`); no property proved here depends on its text. -/
def parse_failure_msg : String := "unexpected response shape"

namespace AiPlugin

/-- Settings of `python_ai_plugin/app.py` (credential fields only; the
base-URL, log-level and CORS fields feed the outbound request / process
setup, which are modelled away with the I/O). -/
structure Settings where
  openai_api_key : Option String
  gemini_api_key : Option String
  snowflake_account : Option String
  snowflake_user : Option String
  snowflake_password : Option String
  snowflake_warehouse : Option String
  snowflake_database : Option String
  snowflake_schema : Option String

/-- `ChatResponse` pydantic model. -/
structure ChatResponse where
  response : String
  provider : String
  model : Option String
  usage : Option Json

/-- Whether a Unicode code point is stripped by Python `str.strip()`
(restricted to the Latin-1 range; no claim exercises code points above
it). -/
def pyIsSpace (c : Char) : Bool :=
  (9 ≤ c.toNat && c.toNat ≤ 13) || c.toNat == 32 ||
  (28 ≤ c.toNat && c.toNat ≤ 31) || c.toNat == 133 || c.toNat == 160

/-- Python `s.strip()`: drop whitespace from both ends. -/
def pyStrip (s : String) : String :=
  String.mk (((s.data.dropWhile pyIsSpace).reverse.dropWhile pyIsSpace).reverse)

/-- `ChatRequest` validation: the pydantic field constraints
`min_length=1, max_length=10000` run on the raw prompt, then the
`validate_prompt` validator rejects whitespace-only prompts and stores
the stripped prompt.  `none` models a 422 validation failure. -/
def chat_request_validate (prompt : String) : Option String :=
  if prompt.length < 1 then none
  else if prompt.length > 10000 then none
  else if (pyStrip prompt).isEmpty then none
  else some (pyStrip prompt)

/-- `data["choices"][0]["message"]["content"]` on the OpenAI body. -/
def extract_chat_content (data : Json) : Option String := do
  let choices ← data.lookup "choices"
  let c0 ← choices.index 0
  let message ← c0.lookup "message"
  let content ← message.lookup "content"
  content.asString

/-- `data["candidates"][0]["content"]["parts"][0]["text"]` on the Gemini
body. -/
def extract_gemini_content (data : Json) : Option String := do
  let candidates ← data.lookup "candidates"
  let c0 ← candidates.index 0
  let content ← c0.lookup "content"
  let parts ← content.lookup "parts"
  let p0 ← parts.index 0
  let t ← p0.lookup "text"
  t.asString

/-- `data.get("data", [{}])[0].get("response", "No response received")` on
the Snowflake body: a missing `data` key falls back to `[{}]` and a
missing `response` key falls back to the placeholder string, while a
non-object body, a non-array `data` value, an empty array or a non-object
element raises (landing in the adapter's generic handler). -/
def extract_snowflake_content (data : Json) : Option String :=
  match data with
  | .jobj _ =>
    match (data.lookup "data").getD (.jarr [.jobj []]) with
    | .jarr elems =>
      match elems.head? with
      | none => none
      | some e =>
        match e with
        | .jobj _ =>
          match e.lookup "response" with
          | none => some "No response received"
          | some v => v.asString
        | _ => none
    | _ => none
  | _ => none

/-- `call_openai_api`: credential precondition, one outbound call,
error translation and response normalization. -/
def call_openai_api (s : Settings) (_prompt : String) (up : UpstreamResult) :
    Except HTTPException ChatResponse :=
  if truthy s.openai_api_key = false then
    .error ⟨503, "OpenAI API key not configured"⟩
  else
    match up with
    | .transportError msg =>
      .error ⟨502, "Failed to call OpenAI API: " ++ msg⟩
    | .response code body =>
      if is_success code = false then
        .error ⟨502, "OpenAI API error: " ++ toString code⟩
      else
        match extract_chat_content body with
        | some content =>
          .ok { response := content, provider := "openai",
                model := (body.lookup "model").bind Json.asString,
                usage := body.lookup "usage" }
        | none =>
          .error ⟨502, "Failed to call OpenAI API: " ++ parse_failure_msg⟩

/-- `call_gemini_api`. -/
def call_gemini_api (s : Settings) (_prompt : String) (up : UpstreamResult) :
    Except HTTPException ChatResponse :=
  if truthy s.gemini_api_key = false then
    .error ⟨503, "Gemini API key not configured"⟩
  else
    match up with
    | .transportError msg =>
      .error ⟨502, "Failed to call Gemini API: " ++ msg⟩
    | .response code body =>
      if is_success code = false then
        .error ⟨502, "Gemini API error: " ++ toString code⟩
      else
        match extract_gemini_content body with
        | some content =>
          .ok { response := content, provider := "gemini",
                model := some "gemini-pro",
                usage := body.lookup "usageMetadata" }
        | none =>
          .error ⟨502, "Failed to call Gemini API: " ++ parse_failure_msg⟩

/-- The six-field credential conjunction `all(required_settings)` of the
chat Snowflake adapter, also used by `check_provider_availability`. -/
def snowflake_configured (s : Settings) : Bool :=
  truthy s.snowflake_account && truthy s.snowflake_user &&
  truthy s.snowflake_password && truthy s.snowflake_warehouse &&
  truthy s.snowflake_database && truthy s.snowflake_schema

/-- `call_snowflake_cortex_api` of the chat service. -/
def call_snowflake_cortex_api (s : Settings) (_prompt : String)
    (up : UpstreamResult) : Except HTTPException ChatResponse :=
  if snowflake_configured s = false then
    .error ⟨503, "Snowflake Cortex credentials not configured"⟩
  else
    match up with
    | .transportError msg =>
      .error ⟨502, "Failed to call Snowflake Cortex API: " ++ msg⟩
    | .response code body =>
      if is_success code = false then
        .error ⟨502, "Snowflake Cortex API error: " ++ toString code⟩
      else
        match extract_snowflake_content body with
        | some content =>
          .ok { response := content, provider := "snowflake",
                model := some "llama2-70b-chat",
                usage := none }
        | none =>
          .error ⟨502, "Failed to call Snowflake Cortex API: " ++ parse_failure_msg⟩

/-- `check_provider_availability` of the chat service. -/
def check_provider_availability (s : Settings) : List (String × Bool) :=
  [("openai", truthy s.openai_api_key),
   ("gemini", truthy s.gemini_api_key),
   ("snowflake", snowflake_configured s)]

end AiPlugin

namespace QuestionGenerator

/-- Settings of `python_question_generator/app.py` (credential fields plus
the upload-size bound; base-URL, log-level and CORS fields are modelled
away with the I/O). -/
structure Settings where
  deepseek_api_key : Option String
  snowflake_account : Option String
  snowflake_user : Option String
  snowflake_password : Option String
  snowflake_warehouse : Option String
  snowflake_database : Option String
  snowflake_schema : Option String
  max_file_size : Nat

/-- `QuestionType` enum. -/
inductive QuestionType where
  | mcq
  | short_answer
  | fill_in_blanks
  deriving Repr, DecidableEq

/-- `MCQOption` pydantic model. -/
structure MCQOption where
  option_id : String
  text : String
  deriving Repr, DecidableEq

/-- `Question` pydantic model. -/
structure Question where
  question_id : String
  question_type : QuestionType
  question_text : String
  correct_answer : String
  options : Option (List MCQOption)
  explanation : Option String
  deriving Repr, DecidableEq

/-- `QuestionGenerationResponse` pydantic model (`generation_time` is never
set by the code, so its numeric type is irrelevant). -/
structure QuestionGenerationResponse where
  questions : List Question
  provider : String
  model : Option String
  content_length : Nat
  generation_time : Option Int

/-- `MCQOption(option_id=..., text=...)`: the `text` field carries
`min_length=1`, so pydantic rejects an empty text. -/
def mkMCQOption (option_id : String) (text : String) : Option MCQOption :=
  if text.isEmpty then none else some ⟨option_id, text⟩

/-- `Question(...)`: `question_text` carries `min_length=1`. -/
def mkQuestion (question_id : String) (question_type : QuestionType)
    (question_text : String) (correct_answer : String)
    (options : Option (List MCQOption)) (explanation : Option String) :
    Option Question :=
  if question_text.isEmpty then none
  else some ⟨question_id, question_type, question_text, correct_answer,
             options, explanation⟩

/-- `q_data.get(k, default)` where the value must validate as a pydantic
`str` field; a present non-string value is a construction failure
(numeric-to-string pydantic coercions are not exercised by any body this
development evaluates). -/
def getStrD (j : Json) (k : String) (d : String) : Option String :=
  match j.lookup k with
  | none => some d
  | some (.jstr s) => some s
  | some _ => none

/-- `MCQOption(**opt)`: `opt` must be an object carrying the required
`option_id` and `text` keys (pydantic ignores extra keys). -/
def buildOption (j : Json) : Option MCQOption :=
  match j with
  | .jobj _ =>
    match j.lookup "option_id", j.lookup "text" with
    | some oid, some t => do
      let oids ← oid.asString
      let ts ← t.asString
      mkMCQOption oids ts
    | _, _ => none
  | _ => none

/-- One iteration of the construction loop in `parse_ai_response`
(`i` is the 0-based loop index used for the `f"q{i+1}"` default id). -/
def buildQuestion (i : Nat) (question_type : QuestionType) (j : Json) :
    Option Question :=
  match j with
  | .jobj _ => do
    let qid ← getStrD j "question_id" ("q" ++ toString (i + 1))
    let qtext ← getStrD j "question_text" ""
    let ans ← getStrD j "correct_answer" ""
    let opts ←
      match question_type with
      | .mcq =>
        match j.lookup "options" with
        | none => some (some [])
        | some (.jarr os) => (os.mapM buildOption).map some
        | some _ => none
      | _ => (some none : Option (Option (List MCQOption)))
    let expl ←
      match j.lookup "explanation" with
      | none => some none
      | some .null => some none
      | some (.jstr e) => some (some e)
      | some _ => none
    mkQuestion qid question_type qtext ans opts expl
  | _ => none

/-- The construction loop of `parse_ai_response`; `none` when any
`Question` construction raises (the surrounding `try` then falls through
to the mock fallback). -/
def buildQuestions (question_type : QuestionType) :
    Nat → List Json → Option (List Question)
  | _, [] => some []
  | i, j :: rest => do
    let q ← buildQuestion i question_type j
    let qs ← buildQuestions question_type (i + 1) rest
    pure (q :: qs)

/-- One placeholder question of `create_mock_questions` (loop index `i`
is 0-based, the displayed number is `i+1` as in the Python f-strings). -/
def mock_question (question_type : QuestionType) (i : Nat) : Question :=
  let question_id := "q" ++ toString (i + 1)
  match question_type with
  | .mcq =>
    { question_id,
      question_type := .mcq,
      question_text := "Sample multiple choice question " ++ toString (i + 1)
        ++ " based on the content?",
      correct_answer := "A",
      options := some
        [⟨"A", "Option A for question " ++ toString (i + 1)⟩,
         ⟨"B", "Option B for question " ++ toString (i + 1)⟩,
         ⟨"C", "Option C for question " ++ toString (i + 1)⟩,
         ⟨"D", "Option D for question " ++ toString (i + 1)⟩],
      explanation := some ("This is the explanation for question " ++ toString (i + 1)) }
  | .short_answer =>
    { question_id,
      question_type := .short_answer,
      question_text := "Sample short answer question " ++ toString (i + 1)
        ++ " based on the content?",
      correct_answer := "Sample answer " ++ toString (i + 1),
      options := none,
      explanation := some ("This is the explanation for question " ++ toString (i + 1)) }
  | .fill_in_blanks =>
    { question_id,
      question_type := .fill_in_blanks,
      question_text := "Complete this sentence from the content: The main concept is ______.",
      correct_answer := "concept " ++ toString (i + 1),
      options := none,
      explanation := some ("This is the explanation for question " ++ toString (i + 1)) }

/-- `create_mock_questions` (the `content` argument is accepted and
ignored, as in the source). -/
def create_mock_questions (question_type : QuestionType)
    (num_questions : Nat) (_content : String) : List Question :=
  (List.range num_questions).map (mock_question question_type)

/-- `parse_ai_response`.  `loaded` models the outcome of the Python stdlib
calls on the raw response text: `re.search(r'\[.*\]', response_text,
re.DOTALL)` followed by `json.loads` on the match — `none` when no
bracketed span exists or `json.loads` raises, `some values` when it
returns the elements of the decoded JSON array.  Every failure — no
match, decode failure, or a `Question` construction failure — falls back
to `create_mock_questions(question_type, 3, "Content parsing failed")`. -/
def parse_ai_response (loaded : Option (List Json))
    (question_type : QuestionType) : List Question :=
  match loaded.bind (buildQuestions question_type 0) with
  | some qs => qs
  | none => create_mock_questions question_type 3 "Content parsing failed"

/-- `call_deepseek_api`: credential precondition, one outbound call,
error translation (note: `HTTPStatusError` maps to 502, while every
other exception — transport failures included — maps to 500), response
extraction and question parsing.  `loaded` is the `parse_ai_response`
decode outcome for the extracted content string. -/
def call_deepseek_api (s : Settings) (content : String)
    (question_type : QuestionType) (_num_questions : Nat)
    (_difficulty : String) (up : UpstreamResult)
    (loaded : Option (List Json)) :
    Except HTTPException QuestionGenerationResponse :=
  if truthy s.deepseek_api_key = false then
    .error ⟨503, "DeepSeek API key not configured"⟩
  else
    match up with
    | .transportError _msg =>
      .error ⟨500, "Failed to generate questions using DeepSeek API"⟩
    | .response code body =>
      if is_success code = false then
        .error ⟨502, "DeepSeek API error: " ++ toString code⟩
      else
        match AiPlugin.extract_chat_content body with
        | none =>
          .error ⟨500, "Failed to generate questions using DeepSeek API"⟩
        | some _content_response =>
          .ok { questions := parse_ai_response loaded question_type,
                provider := "deepseek",
                model := some "deepseek-chat",
                content_length := content.length,
                generation_time := none }

/-- The three-field credential conjunction checked by the
question-generation Snowflake adapter (account, user, password only). -/
def snowflake_adapter_configured (s : Settings) : Bool :=
  truthy s.snowflake_account && truthy s.snowflake_user &&
  truthy s.snowflake_password

/-- `call_snowflake_cortex_api` of the question-generation service: it
issues no outbound call — it builds mock questions directly. -/
def call_snowflake_cortex_api (s : Settings) (content : String)
    (question_type : QuestionType) (num_questions : Nat)
    (_difficulty : String) :
    Except HTTPException QuestionGenerationResponse :=
  if snowflake_adapter_configured s = false then
    .error ⟨503, "Snowflake credentials not configured"⟩
  else
    .ok { questions := create_mock_questions question_type num_questions content,
          provider := "snowflake",
          model := some "cortex-ai",
          content_length := content.length,
          generation_time := none }

/-- The six-field credential conjunction of the question-generation
availability checker. -/
def snowflake_checker_configured (s : Settings) : Bool :=
  truthy s.snowflake_account && truthy s.snowflake_user &&
  truthy s.snowflake_password && truthy s.snowflake_warehouse &&
  truthy s.snowflake_database && truthy s.snowflake_schema

/-- `check_provider_availability` of the question-generation service. -/
def check_provider_availability (s : Settings) : List (String × Bool) :=
  [("deepseek", truthy s.deepseek_api_key),
   ("snowflake", snowflake_checker_configured s)]

/-- An uploaded file as the endpoint sees it. -/
structure UploadedFile where
  filename : String
  size : Option Nat

/-- Embeds the request interface and pre-adapter validation of
`generate_questions_deepseek` (`generate_questions_snowflake` is
identical).  The declared form parameters are `file` (a required
`File(...)`), `question_type`, `num_questions` and `difficulty`; there is
no inline-text parameter, so an undeclared form field such as
`text_content` is ignored by FastAPI.  A request missing the required
file parameter is rejected by FastAPI with a 422 validation error before
the handler runs; the handler then rejects non-`.pdf` filenames with 400
and oversized files with 413.  Returns the rejection, or `none` when the
request reaches PDF extraction and the adapter. -/
def generate_questions_request_check (file : Option UploadedFile)
    (max_file_size : Nat) : Option HTTPException :=
  match file with
  | none => some ⟨422, "Field required"⟩
  | some f =>
    if (f.filename.toLower.endsWith ".pdf") = false then
      some ⟨400, "Only PDF files are supported"⟩
    else
      match f.size with
      | some sz =>
        if sz > max_file_size then
          some ⟨413, "File size exceeds maximum limit of "
                ++ toString max_file_size ++ " bytes"⟩
        else none
      | none => none

end QuestionGenerator

/-! Concrete configurations and bodies used by witnesses and
counterexamples. -/

/-- Chat-service settings with no credential configured. -/
def csAllNone : AiPlugin.Settings :=
  ⟨none, none, none, none, none, none, none, none⟩

/-- Chat-service settings with only the OpenAI key configured. -/
def csOpenai : AiPlugin.Settings :=
  { csAllNone with openai_api_key := some "test-key" }

/-- Chat-service settings with only the Gemini key configured. -/
def csGemini : AiPlugin.Settings :=
  { csAllNone with gemini_api_key := some "test-key" }

/-- Chat-service settings with all six Snowflake fields configured. -/
def csSnow : AiPlugin.Settings :=
  { csAllNone with
    snowflake_account := some "acct", snowflake_user := some "user",
    snowflake_password := some "pwd", snowflake_warehouse := some "wh",
    snowflake_database := some "db", snowflake_schema := some "sch" }

/-- Question-generation settings with no credential configured. -/
def qgAllNone : QuestionGenerator.Settings :=
  ⟨none, none, none, none, none, none, none, 10485760⟩

/-- Question-generation settings with only the DeepSeek key configured. -/
def qgDeep : QuestionGenerator.Settings :=
  { qgAllNone with deepseek_api_key := some "test-key" }

/-- Question-generation settings where the Snowflake account, user and
password are configured but the warehouse is not (database and schema
are): the availability checker reports `snowflake` unavailable, yet the
question-generation Snowflake adapter's three-field precondition holds. -/
def qgPartialSnow : QuestionGenerator.Settings :=
  { qgAllNone with
    snowflake_account := some "acct", snowflake_user := some "user",
    snowflake_password := some "pwd", snowflake_database := some "db",
    snowflake_schema := some "sch" }

/-- The OpenAI-style success body of the spec scenario:
`{"choices":[{"message":{"content":"Hi there"}}]}`. -/
def helloBody : Json :=
  .jobj [("choices", .jarr [.jobj [("message",
    .jobj [("content", .jstr "Hi there")])]])]

/-- Whether an adapter outcome is a `ServiceUnavailable` (503) error. -/
def isError503 {α : Type} : Except HTTPException α → Bool
  | .error e => e.status_code == 503
  | .ok _ => false

/-- Spec-side reading of "the credential field is present and non-empty". -/
def credential_present (o : Option String) : Prop :=
  ∃ s, o = some s ∧ s ≠ ""

/-! Helper lemmas. -/

theorem dropWhile_length_le (p : Char → Bool) (l : List Char) :
    (l.dropWhile p).length ≤ l.length := by
  induction l with
  | nil => simp
  | cons a t ih =>
    by_cases h : p a
    · rw [List.dropWhile_cons_of_pos h]
      exact le_trans ih (Nat.le_succ _)
    · rw [List.dropWhile_cons_of_neg h]

theorem pyStrip_length_le (s : String) :
    (AiPlugin.pyStrip s).length ≤ s.length := by
  show (((s.data.dropWhile AiPlugin.pyIsSpace).reverse.dropWhile
    AiPlugin.pyIsSpace).reverse).length ≤ s.data.length
  rw [List.length_reverse]
  calc ((s.data.dropWhile AiPlugin.pyIsSpace).reverse.dropWhile
          AiPlugin.pyIsSpace).length
      ≤ (s.data.dropWhile AiPlugin.pyIsSpace).reverse.length :=
        dropWhile_length_le _ _
    _ = (s.data.dropWhile AiPlugin.pyIsSpace).length := List.length_reverse _
    _ ≤ s.data.length := dropWhile_length_le _ _

theorem truthy_iff (o : Option String) :
    truthy o = true ↔ credential_present o := by
  cases o with
  | none => simp [truthy, credential_present]
  | some s =>
    simp only [truthy, credential_present, Option.some.injEq, Bool.not_eq_true',
      exists_eq_left']
    rw [← Bool.not_eq_true, not_iff_not]
    exact String.isEmpty_iff s

/-! Claim theorems. -/

/-- C4 (code divergence): the question-generation endpoints declare only a
required PDF `file` form parameter — there is no inline-text content
source — so a request supplying no file is rejected by FastAPI with a 422
validation error, not the 400 the claim (and the repository's own test
suite) describes for the neither-source case. -/
theorem c4_missing_file_yields_422_not_400 :
    QuestionGenerator.generate_questions_request_check none 10485760 =
      some ⟨422, "Field required"⟩ ∧ (422 : Nat) ≠ 400 :=
  ⟨rfl, by decide⟩

/-- C1 (counterexample): with the Snowflake account, user and password
configured but the warehouse missing, the availability checker reports
the question-generation `snowflake` provider unavailable, yet the
question-generation Snowflake adapter does not fail with 503 — it
returns a successful response. -/
theorem c1_counterexample_qg_snowflake_partial_credentials :
    (QuestionGenerator.check_provider_availability qgPartialSnow).lookup
      "snowflake" = some false ∧
    ∃ r, QuestionGenerator.call_snowflake_cortex_api qgPartialSnow
        "Some document content" .mcq 3 "medium" = .ok r ∧
      r.provider = "snowflake" :=
  ⟨rfl, ⟨_, rfl, rfl⟩⟩

/-- C2 (counterexample): the question-generation DeepSeek adapter maps a
transport failure of its outbound call to a 500 InternalError, not the
502 BadGateway the claim states. -/
theorem c2_counterexample_deepseek_transport_500 :
    QuestionGenerator.call_deepseek_api qgDeep "Some document content" .mcq 3
      "medium" (.transportError "connection timed out") none =
      .error ⟨500, "Failed to generate questions using DeepSeek API"⟩ ∧
    (500 : Nat) ≠ 502 :=
  ⟨rfl, by decide⟩

/-- C3 (counterexample): on a 2xx upstream response whose body `{}` lacks
the expected fields, the Snowflake chat adapter does not fail — it
silently substitutes the default text "No response received" into the
returned `ChatResponse`. -/
theorem c3_counterexample_snowflake_chat_defaults :
    AiPlugin.call_snowflake_cortex_api csSnow "Hello"
      (.response 200 (.jobj [])) =
      .ok { response := "No response received", provider := "snowflake",
            model := some "llama2-70b-chat", usage := none } :=
  rfl

/-- C8: each service's availability checker is a pure function of the
static configuration and reports a provider available exactly when every
credential field that provider requires is present and non-empty
(openai / gemini / deepseek: the API key; snowflake: account, user,
password, warehouse, database and schema in both services). -/
theorem c8_availability_checker_iff_credentials :
    ∀ (cs : AiPlugin.Settings) (qs : QuestionGenerator.Settings),
    ((AiPlugin.check_provider_availability cs).lookup "openai" = some true ↔
      credential_present cs.openai_api_key) ∧
    ((AiPlugin.check_provider_availability cs).lookup "gemini" = some true ↔
      credential_present cs.gemini_api_key) ∧
    ((AiPlugin.check_provider_availability cs).lookup "snowflake" = some true ↔
      (credential_present cs.snowflake_account ∧
       credential_present cs.snowflake_user ∧
       credential_present cs.snowflake_password ∧
       credential_present cs.snowflake_warehouse ∧
       credential_present cs.snowflake_database ∧
       credential_present cs.snowflake_schema)) ∧
    ((QuestionGenerator.check_provider_availability qs).lookup "deepseek" =
        some true ↔ credential_present qs.deepseek_api_key) ∧
    ((QuestionGenerator.check_provider_availability qs).lookup "snowflake" =
        some true ↔
      (credential_present qs.snowflake_account ∧
       credential_present qs.snowflake_user ∧
       credential_present qs.snowflake_password ∧
       credential_present qs.snowflake_warehouse ∧
       credential_present qs.snowflake_database ∧
       credential_present qs.snowflake_schema)) := by
  intro cs qs
  have h1 : (AiPlugin.check_provider_availability cs).lookup "openai" =
      some (truthy cs.openai_api_key) := rfl
  have h2 : (AiPlugin.check_provider_availability cs).lookup "gemini" =
      some (truthy cs.gemini_api_key) := rfl
  have h3 : (AiPlugin.check_provider_availability cs).lookup "snowflake" =
      some (AiPlugin.snowflake_configured cs) := rfl
  have h4 : (QuestionGenerator.check_provider_availability qs).lookup
      "deepseek" = some (truthy qs.deepseek_api_key) := rfl
  have h5 : (QuestionGenerator.check_provider_availability qs).lookup
      "snowflake" = some (QuestionGenerator.snowflake_checker_configured qs) :=
    rfl
  rw [h1, h2, h3, h4, h5]
  simp only [Option.some.injEq, AiPlugin.snowflake_configured,
    QuestionGenerator.snowflake_checker_configured, Bool.and_eq_true,
    truthy_iff]
  refine ⟨trivial, trivial, ?_, trivial, ?_⟩ <;> tauto

/-- C7: an empty or whitespace-only prompt fails `ChatRequest` validation
(so the chat endpoints return a 422 validation error and no adapter is
invoked), and every accepted prompt is stored whitespace-trimmed with
length between 1 and 10000. -/
theorem c7_chat_request_validation :
    ∀ prompt : String,
    (prompt.data.all AiPlugin.pyIsSpace = true →
      AiPlugin.chat_request_validate prompt = none) ∧
    (∀ r, AiPlugin.chat_request_validate prompt = some r →
      r = AiPlugin.pyStrip prompt ∧ 1 ≤ r.length ∧ r.length ≤ 10000) := by
  intro prompt
  constructor
  · intro hall
    have hstrip : AiPlugin.pyStrip prompt = "" := by
      have h1 : prompt.data.dropWhile AiPlugin.pyIsSpace = [] :=
        List.dropWhile_eq_nil_iff.mpr (fun x hx => List.all_eq_true.mp hall x hx)
      show String.mk (((prompt.data.dropWhile AiPlugin.pyIsSpace).reverse.dropWhile
        AiPlugin.pyIsSpace).reverse) = ""
      rw [h1]
      rfl
    unfold AiPlugin.chat_request_validate
    rw [hstrip]
    have he : "".isEmpty = true := rfl
    simp [he]
  · intro r hr
    unfold AiPlugin.chat_request_validate at hr
    by_cases h1 : prompt.length < 1
    · simp [h1] at hr
    by_cases h2 : prompt.length > 10000
    · simp [h1, h2] at hr
    by_cases h3 : (AiPlugin.pyStrip prompt).isEmpty = true
    · simp [h1, h2, h3] at hr
    · simp [h1, h2, h3] at hr
      have hne : AiPlugin.pyStrip prompt ≠ "" := by
        intro he
        exact h3 ((String.isEmpty_iff _).mpr he)
      have hpos : 1 ≤ (AiPlugin.pyStrip prompt).length := by
        rcases hl : (AiPlugin.pyStrip prompt).data with _ | ⟨c, t⟩
        · exact absurd (String.ext hl) hne
        · show 1 ≤ (AiPlugin.pyStrip prompt).data.length
          rw [hl]
          exact Nat.succ_le_succ (Nat.zero_le _)
      have hle : (AiPlugin.pyStrip prompt).length ≤ 10000 :=
        le_trans (pyStrip_length_le prompt) (by omega)
      exact ⟨hr.symm, hr ▸ hpos, hr ▸ hle⟩

/-- C7 witness: the all-whitespace prompt `"   "` is rejected, and the
prompt `" hi "` is accepted as the trimmed `"hi"` of length 2. -/
theorem c7_witness :
    AiPlugin.chat_request_validate "   " = none ∧
    ("hi" = AiPlugin.pyStrip " hi " ∧ 1 ≤ "hi".length ∧ "hi".length ≤ 10000) :=
  ⟨(c7_chat_request_validation "   ").1 (by decide),
   (c7_chat_request_validation " hi ").2 "hi" (by decide)⟩

/-- C1 (amended): each adapter fails with `ServiceUnavailable` (503)
exactly when its own credential conjunction fails, for every upstream
outcome (hence before, and independent of, any outbound network call);
the chat adapters and the question-generation DeepSeek adapter check
exactly the credential set the availability checker requires for that
provider, but the question-generation Snowflake adapter checks only
account, user and password — a proper subset of the checker's six-field
set. -/
theorem c1_adapter_503_iff_own_credentials_missing :
    ∀ (cs : AiPlugin.Settings) (qs : QuestionGenerator.Settings)
      (prompt content diff : String) (qt : QuestionGenerator.QuestionType)
      (num : Nat) (up : UpstreamResult) (loaded : Option (List Json)),
    isError503 (AiPlugin.call_openai_api cs prompt up) =
      !(truthy cs.openai_api_key) ∧
    isError503 (AiPlugin.call_gemini_api cs prompt up) =
      !(truthy cs.gemini_api_key) ∧
    isError503 (AiPlugin.call_snowflake_cortex_api cs prompt up) =
      !(AiPlugin.snowflake_configured cs) ∧
    isError503 (QuestionGenerator.call_deepseek_api qs content qt num diff up
        loaded) = !(truthy qs.deepseek_api_key) ∧
    isError503 (QuestionGenerator.call_snowflake_cortex_api qs content qt num
        diff) = !(QuestionGenerator.snowflake_adapter_configured qs) := by
  intro cs qs prompt content diff qt num up loaded
  refine ⟨?_, ?_, ?_, ?_, ?_⟩
  · cases hk : truthy cs.openai_api_key
    · simp [AiPlugin.call_openai_api, hk, isError503]
    · rcases up with msg | ⟨code, body⟩
      · simp [AiPlugin.call_openai_api, hk, isError503]
      · cases hs : is_success code
        · simp [AiPlugin.call_openai_api, hk, hs, isError503]
        · cases hx : AiPlugin.extract_chat_content body <;>
            simp [AiPlugin.call_openai_api, hk, hs, hx, isError503]
  · cases hk : truthy cs.gemini_api_key
    · simp [AiPlugin.call_gemini_api, hk, isError503]
    · rcases up with msg | ⟨code, body⟩
      · simp [AiPlugin.call_gemini_api, hk, isError503]
      · cases hs : is_success code
        · simp [AiPlugin.call_gemini_api, hk, hs, isError503]
        · cases hx : AiPlugin.extract_gemini_content body <;>
            simp [AiPlugin.call_gemini_api, hk, hs, hx, isError503]
  · cases hk : AiPlugin.snowflake_configured cs
    · simp [AiPlugin.call_snowflake_cortex_api, hk, isError503]
    · rcases up with msg | ⟨code, body⟩
      · simp [AiPlugin.call_snowflake_cortex_api, hk, isError503]
      · cases hs : is_success code
        · simp [AiPlugin.call_snowflake_cortex_api, hk, hs, isError503]
        · cases hx : AiPlugin.extract_snowflake_content body <;>
            simp [AiPlugin.call_snowflake_cortex_api, hk, hs, hx, isError503]
  · cases hk : truthy qs.deepseek_api_key
    · simp [QuestionGenerator.call_deepseek_api, hk, isError503]
    · rcases up with msg | ⟨code, body⟩
      · simp [QuestionGenerator.call_deepseek_api, hk, isError503]
      · cases hs : is_success code
        · simp [QuestionGenerator.call_deepseek_api, hk, hs, isError503]
        · cases hx : AiPlugin.extract_chat_content body <;>
            simp [QuestionGenerator.call_deepseek_api, hk, hs, hx, isError503]
  · cases hk : QuestionGenerator.snowflake_adapter_configured qs <;>
      simp [QuestionGenerator.call_snowflake_cortex_api, hk, isError503]

/-- C2 (amended): for the three chat adapters a transport failure of the
outbound call maps to `BadGateway` (502), the same kind as an upstream
HTTP error response; the question-generation DeepSeek adapter instead
maps transport failures (any exception that is not `HTTPStatusError`) to
a 500 `InternalError`; the question-generation Snowflake adapter issues
no outbound call at all. -/
theorem c2_transport_failure_mapping :
    ∀ (cs : AiPlugin.Settings) (qs : QuestionGenerator.Settings)
      (prompt content msg diff : String) (qt : QuestionGenerator.QuestionType)
      (num : Nat) (loaded : Option (List Json)),
    (truthy cs.openai_api_key = true →
      AiPlugin.call_openai_api cs prompt (.transportError msg) =
        .error ⟨502, "Failed to call OpenAI API: " ++ msg⟩) ∧
    (truthy cs.gemini_api_key = true →
      AiPlugin.call_gemini_api cs prompt (.transportError msg) =
        .error ⟨502, "Failed to call Gemini API: " ++ msg⟩) ∧
    (AiPlugin.snowflake_configured cs = true →
      AiPlugin.call_snowflake_cortex_api cs prompt (.transportError msg) =
        .error ⟨502, "Failed to call Snowflake Cortex API: " ++ msg⟩) ∧
    (truthy qs.deepseek_api_key = true →
      QuestionGenerator.call_deepseek_api qs content qt num diff
          (.transportError msg) loaded =
        .error ⟨500, "Failed to generate questions using DeepSeek API"⟩) := by
  intro cs qs prompt content msg diff qt num loaded
  refine ⟨?_, ?_, ?_, ?_⟩ <;> intro hk <;>
    simp [AiPlugin.call_openai_api, AiPlugin.call_gemini_api,
      AiPlugin.call_snowflake_cortex_api, QuestionGenerator.call_deepseek_api,
      hk]

/-- C2 witness: with the OpenAI key configured, a timeout maps to 502. -/
theorem c2_witness :
    AiPlugin.call_openai_api csOpenai "Hello" (.transportError "timed out") =
      .error ⟨502, "Failed to call OpenAI API: " ++ "timed out"⟩ :=
  (c2_transport_failure_mapping csOpenai qgDeep "Hello" "content" "timed out"
    "medium" .mcq 3 none).1 rfl

/-- C3 (amended): on a 2xx upstream response lacking the expected fields,
the OpenAI and Gemini chat adapters fail with `BadGateway` (502); the
Snowflake chat adapter instead substitutes the default text
"No response received" into a successful `ChatResponse` when the
`data` / `response` fields are absent. -/
theorem c3_chat_parse_failure_behavior :
    ∀ (cs : AiPlugin.Settings) (prompt : String) (code : Nat) (body : Json),
    is_success code = true →
    (truthy cs.openai_api_key = true →
      AiPlugin.extract_chat_content body = none →
      AiPlugin.call_openai_api cs prompt (.response code body) =
        .error ⟨502, "Failed to call OpenAI API: " ++ parse_failure_msg⟩) ∧
    (truthy cs.gemini_api_key = true →
      AiPlugin.extract_gemini_content body = none →
      AiPlugin.call_gemini_api cs prompt (.response code body) =
        .error ⟨502, "Failed to call Gemini API: " ++ parse_failure_msg⟩) ∧
    (AiPlugin.snowflake_configured cs = true →
      (∃ fields, body = .jobj fields) →
      body.lookup "data" = none →
      AiPlugin.call_snowflake_cortex_api cs prompt (.response code body) =
        .ok { response := "No response received", provider := "snowflake",
              model := some "llama2-70b-chat", usage := none }) := by
  intro cs prompt code body hs
  refine ⟨?_, ?_, ?_⟩
  · intro hk hx
    simp [AiPlugin.call_openai_api, hk, hs, hx]
  · intro hk hx
    simp [AiPlugin.call_gemini_api, hk, hs, hx]
  · rintro hk ⟨fields, rfl⟩ hd
    have hd' : List.lookup "data" fields = none := by
      simpa [Json.lookup] using hd
    have hx : AiPlugin.extract_snowflake_content (.jobj fields) =
        some "No response received" := by
      simp [AiPlugin.extract_snowflake_content, Json.lookup, hd']
    simp [AiPlugin.call_snowflake_cortex_api, hk, hs, hx]

/-- C3 witness: with the OpenAI key configured, the empty-object body
gives a 502. -/
theorem c3_witness :
    AiPlugin.call_openai_api csOpenai "Hello" (.response 200 (.jobj [])) =
      .error ⟨502, "Failed to call OpenAI API: " ++ parse_failure_msg⟩ :=
  (c3_chat_parse_failure_behavior csOpenai "Hello" 200 (.jobj []) rfl).1
    rfl rfl

/-- C5: for every adapter that issues an outbound call (the three chat
adapters and the question-generation DeepSeek adapter) and every
upstream response with a non-2xx status, the adapter fails with
`BadGateway` (502) whose detail message carries the upstream status code. -/
theorem c5_upstream_http_error_maps_to_502 :
    ∀ (cs : AiPlugin.Settings) (qs : QuestionGenerator.Settings)
      (prompt content diff : String) (qt : QuestionGenerator.QuestionType)
      (num code : Nat) (body : Json) (loaded : Option (List Json)),
    is_success code = false →
    (truthy cs.openai_api_key = true →
      AiPlugin.call_openai_api cs prompt (.response code body) =
        .error ⟨502, "OpenAI API error: " ++ toString code⟩) ∧
    (truthy cs.gemini_api_key = true →
      AiPlugin.call_gemini_api cs prompt (.response code body) =
        .error ⟨502, "Gemini API error: " ++ toString code⟩) ∧
    (AiPlugin.snowflake_configured cs = true →
      AiPlugin.call_snowflake_cortex_api cs prompt (.response code body) =
        .error ⟨502, "Snowflake Cortex API error: " ++ toString code⟩) ∧
    (truthy qs.deepseek_api_key = true →
      QuestionGenerator.call_deepseek_api qs content qt num diff
          (.response code body) loaded =
        .error ⟨502, "DeepSeek API error: " ++ toString code⟩) := by
  intro cs qs prompt content diff qt num code body loaded hs
  refine ⟨?_, ?_, ?_, ?_⟩ <;> intro hk <;>
    simp [AiPlugin.call_openai_api, AiPlugin.call_gemini_api,
      AiPlugin.call_snowflake_cortex_api, QuestionGenerator.call_deepseek_api,
      hk, hs]

/-- C5 witness: a 404 from OpenAI with the key configured gives 502 with
the status in the detail. -/
theorem c5_witness :
    AiPlugin.call_openai_api csOpenai "Hello" (.response 404 (.jobj [])) =
      .error ⟨502, "OpenAI API error: " ++ toString 404⟩ :=
  (c5_upstream_http_error_maps_to_502 csOpenai qgDeep "Hello" "content"
    "medium" .mcq 3 404 (.jobj []) none rfl).1 rfl

/-- C6: a DeepSeek multiple-choice request for 3 questions whose upstream
response text cannot be parsed as the expected JSON list yields exactly
the 3 placeholder multiple-choice questions, each carrying exactly 4
options. -/
theorem c6_mcq_unparsable_three_placeholders :
    ∀ (qs : QuestionGenerator.Settings) (content diff text : String)
      (code : Nat) (body : Json),
    truthy qs.deepseek_api_key = true →
    is_success code = true →
    AiPlugin.extract_chat_content body = some text →
    ∃ r, QuestionGenerator.call_deepseek_api qs content .mcq 3 diff
        (.response code body) none = .ok r ∧
      r.questions =
        QuestionGenerator.create_mock_questions .mcq 3 "Content parsing failed" ∧
      r.questions.length = 3 ∧
      r.questions.all (fun q =>
        q.question_type == .mcq &&
        ((q.options.map List.length) == some 4)) = true := by
  intro qs content diff text code body hk hs hx
  refine ⟨{ questions := QuestionGenerator.parse_ai_response none .mcq,
            provider := "deepseek", model := some "deepseek-chat",
            content_length := content.length, generation_time := none },
          ?_, ?_, ?_, ?_⟩
  · simp [QuestionGenerator.call_deepseek_api, hk, hs, hx]
  · rfl
  · rfl
  · show ((QuestionGenerator.parse_ai_response none .mcq).all (fun q =>
      q.question_type == .mcq &&
      ((q.options.map List.length) == some 4))) = true
    decide

/-- C6 witness: concrete request hitting the unparsable-payload fallback. -/
theorem c6_witness :
    ∃ r, QuestionGenerator.call_deepseek_api qgDeep "Some doc" .mcq 3 "medium"
        (.response 200 helloBody) none = .ok r ∧
      r.questions =
        QuestionGenerator.create_mock_questions .mcq 3 "Content parsing failed" ∧
      r.questions.length = 3 ∧
      r.questions.all (fun q =>
        q.question_type == .mcq &&
        ((q.options.map List.length) == some 4)) = true :=
  c6_mcq_unparsable_three_placeholders qgDeep "Some doc" "medium" "Hi there"
    200 helloBody rfl rfl rfl

/-- C9: every successful adapter result carries that adapter's fixed
provider identity string, and the spec scenario — prompt "Hello" with an
OpenAI-style backend returning
`{"choices":[{"message":{"content":"Hi there"}}]}` — yields the
`ChatResponse` with response "Hi there" and provider "openai". -/
theorem c9_provider_identity :
    (∀ (cs : AiPlugin.Settings) (prompt : String) (up : UpstreamResult)
       (r : AiPlugin.ChatResponse),
       AiPlugin.call_openai_api cs prompt up = .ok r → r.provider = "openai") ∧
    (∀ (cs : AiPlugin.Settings) (prompt : String) (up : UpstreamResult)
       (r : AiPlugin.ChatResponse),
       AiPlugin.call_gemini_api cs prompt up = .ok r → r.provider = "gemini") ∧
    (∀ (cs : AiPlugin.Settings) (prompt : String) (up : UpstreamResult)
       (r : AiPlugin.ChatResponse),
       AiPlugin.call_snowflake_cortex_api cs prompt up = .ok r →
         r.provider = "snowflake") ∧
    (∀ (qs : QuestionGenerator.Settings) (content diff : String)
       (qt : QuestionGenerator.QuestionType) (num : Nat) (up : UpstreamResult)
       (loaded : Option (List Json))
       (r : QuestionGenerator.QuestionGenerationResponse),
       QuestionGenerator.call_deepseek_api qs content qt num diff up loaded =
         .ok r → r.provider = "deepseek") ∧
    (∀ (qs : QuestionGenerator.Settings) (content diff : String)
       (qt : QuestionGenerator.QuestionType) (num : Nat)
       (r : QuestionGenerator.QuestionGenerationResponse),
       QuestionGenerator.call_snowflake_cortex_api qs content qt num diff =
         .ok r → r.provider = "snowflake") ∧
    AiPlugin.call_openai_api csOpenai "Hello" (.response 200 helloBody) =
      .ok { response := "Hi there", provider := "openai", model := none,
            usage := none } := by
  refine ⟨?_, ?_, ?_, ?_, ?_, ?_⟩
  · intro cs prompt up r h
    unfold AiPlugin.call_openai_api at h
    repeat' split at h
    all_goals first
      | (cases h; rfl)
      | (simp at h)
  · intro cs prompt up r h
    unfold AiPlugin.call_gemini_api at h
    repeat' split at h
    all_goals first
      | (cases h; rfl)
      | (simp at h)
  · intro cs prompt up r h
    unfold AiPlugin.call_snowflake_cortex_api at h
    repeat' split at h
    all_goals first
      | (cases h; rfl)
      | (simp at h)
  · intro qs content diff qt num up loaded r h
    unfold QuestionGenerator.call_deepseek_api at h
    repeat' split at h
    all_goals first
      | (cases h; rfl)
      | (simp at h)
  · intro qs content diff qt num r h
    unfold QuestionGenerator.call_snowflake_cortex_api at h
    repeat' split at h
    all_goals first
      | (cases h; rfl)
      | (simp at h)
  · rfl

/-- C9 witness: the scenario instance of the universal openai conjunct. -/
theorem c9_witness :
    ({ response := "Hi there", provider := "openai", model := none,
       usage := none } : AiPlugin.ChatResponse).provider = "openai" :=
  c9_provider_identity.1 csOpenai "Hello" (.response 200 helloBody) _ rfl

/-- C10: when the upstream response text cannot be parsed as the expected
JSON list, the DeepSeek question path returns exactly 3 placeholder
questions regardless of the requested count — for any `num ≠ 3`, the
result length is 3, not `num`. -/
theorem c10_fallback_returns_three_regardless_of_count :
    ∀ (qs : QuestionGenerator.Settings) (content diff text : String)
      (qt : QuestionGenerator.QuestionType) (num code : Nat) (body : Json),
    truthy qs.deepseek_api_key = true →
    is_success code = true →
    AiPlugin.extract_chat_content body = some text →
    ∃ r, QuestionGenerator.call_deepseek_api qs content qt num diff
        (.response code body) none = .ok r ∧
      r.questions.length = 3 ∧ (num ≠ 3 → r.questions.length ≠ num) := by
  intro qs content diff text qt num code body hk hs hx
  refine ⟨{ questions := QuestionGenerator.parse_ai_response none qt,
            provider := "deepseek", model := some "deepseek-chat",
            content_length := content.length, generation_time := none },
          ?_, ?_, ?_⟩
  · simp [QuestionGenerator.call_deepseek_api, hk, hs, hx]
  · show (QuestionGenerator.parse_ai_response none qt).length = 3
    simp [QuestionGenerator.parse_ai_response,
      QuestionGenerator.create_mock_questions]
  · intro hne
    show (QuestionGenerator.parse_ai_response none qt).length ≠ num
    simp [QuestionGenerator.parse_ai_response,
      QuestionGenerator.create_mock_questions]
    omega

/-- C10 witness: a request for 5 questions with an unparsable payload
returns 3 questions. -/
theorem c10_witness :
    ∃ r, QuestionGenerator.call_deepseek_api qgDeep "Some doc" .short_answer 5
        "medium" (.response 200 helloBody) none = .ok r ∧
      r.questions.length = 3 ∧ ((5 : Nat) ≠ 3 → r.questions.length ≠ 5) :=
  c10_fallback_returns_three_regardless_of_count qgDeep "Some doc" "medium"
    "Hi there" .short_answer 5 200 helloBody rfl rfl rfl
